import Mathlib

/-!
Verification of the Gaia EPS backend (Node/Express/Prisma) against its
natural-language specification. The JavaScript controllers, validators and
configuration modules are shallowly embedded as executable Lean definitions;
external libraries (jsonwebtoken, CryptoJS, JSON, Prisma query filters) are
modelled by explicit Lean data types faithful to their documented behaviour.
Times are epoch milliseconds as `Nat`; JavaScript string truthiness is
modelled explicitly where the code relies on it.
-/

namespace Gaia

/- ======================= Definitions ======================= -/

/- ===================== Colombian validators (utils/colombia-validators.js) ===================== -/
/-- Digit value of a character, as `Number(c)` on a digit char. -/
def charDigit (c : Char) : Nat := c.toNat - 48

/-- `cedula.replace(/\D/g, "")` followed by `split("").map(Number)`:
the digit values of the input, non-digit characters removed. -/
def stripNonDigits (s : String) : List Nat :=
  (s.data.filter Char.isDigit).map charDigit

/-- The body of the loop: `result = digits[i] * multiplier; if (result > 9)
result = Math.floor(result / 10) + (result % 10)`. -/
def digitAdjust (r : Nat) : Nat :=
  if r > 9 then r / 10 + r % 10 else r

/-- The accumulation loop of `validateCedulaColombia`: processes the digit
list (already in processing order, i.e. least-significant first), carrying
the current multiplier (2 or 1, flipped each step) and the running sum. -/
def cedulaLoop : List Nat → Nat → Nat → Nat
  | [], _, sum => sum
  | d :: ds, m, sum => cedulaLoop ds (if m = 2 then 1 else 2) (sum + digitAdjust (d * m))

/-- `validateCedulaColombia` from `utils/colombia-validators.js`: strips
non-digit characters, requires 6..10 digits, pops the last digit as check
digit, sums the remaining digits from least-significant to most-significant
with alternating multipliers starting at 2 (digit-summing products over 9),
and compares the check digit with `(10 - (sum % 10)) % 10`. -/
def validateCedulaColombia (cedula : String) : Bool :=
  let clean := stripNonDigits cedula
  if clean.length < 6 || clean.length > 10 then false
  else
    match clean.reverse with
    | [] => false
    | check :: rest => ((10 - (cedulaLoop rest 2 0) % 10) % 10) == check

/-- Multiplier used on the digit at (0-based) position `i` counted from the
least-significant remaining digit, per the spec: 2, 1, 2, 1, ... -/
def cedulaMult (i : Nat) : Nat := if i % 2 = 0 then 2 else 1

/-- The spec's checksum sum, written from the claim's words: the sum over the
remaining digits from least-significant to most-significant of
`digitAdjust (digit * multiplier)`, the multiplier alternating 2,1,2,1,...
(`k` is the position of the first digit in that alternation). -/
def specSumFrom (k : Nat) : List Nat → Nat
  | [] => 0
  | d :: ds => digitAdjust (d * cedulaMult k) + specSumFrom (k + 1) ds

/-- The national-ID validator as the claim states it: after stripping
non-digits the length must be 6..10, and the last digit must equal
`(10 - (sum % 10)) % 10` where `sum` is `specSumFrom 0` over the remaining
digits taken least-significant first. -/
def specValidateCedula (s : String) : Bool :=
  let clean := stripNonDigits s
  if clean.length < 6 || clean.length > 10 then false
  else
    match clean.reverse with
    | [] => false
    | check :: rest => ((10 - (specSumFrom 0 rest) % 10) % 10) == check

/-- `phone.replace(/[\s\-$$$$]/g, "")`: the character class of that regex
contains whitespace, the hyphen and the (repeated) literal dollar sign —
parentheses are NOT in the class (the source's `$$$$` is a corrupted
rendering of an intended `\(\)`), so they survive the stripping. -/
def stripPhoneChars (s : String) : String :=
  String.mk (s.data.filter (fun c => !(c.isWhitespace || c == '-' || c == '$')))

/-- `/^\+57[0-9]{10}$/`. -/
def matchPlus57 : List Char → Bool
  | '+' :: '5' :: '7' :: rest => rest.length == 10 && rest.all Char.isDigit
  | _ => false

/-- `/^57[0-9]{10}$/`. -/
def match57 : List Char → Bool
  | '5' :: '7' :: rest => rest.length == 10 && rest.all Char.isDigit
  | _ => false

/-- `validateColombianPhone` from `utils/colombia-validators.js`: rejects a
falsy (empty) input, strips the characters matched by `[\s\-$$$$]`, and
accepts iff one of the four patterns matches the remainder. -/
def validateColombianPhone (phone : String) : Bool :=
  if phone = "" then false
  else
    let c := (stripPhoneChars phone).data
    matchPlus57 c || match57 c ||
      (c.length == 10 && c.all Char.isDigit) ||
      (c.length == 7 && c.all Char.isDigit)

/- ===================== Data-model enums (prisma/schema.prisma) ===================== -/
/-- `enum UserRole` of the Prisma schema. -/
inductive UserRole
  | ADMIN | PATIENT | DOCTOR | SPECIALIST | PSYCHOLOGIST
  | NURSE | ADMINISTRATIVE | AUDITOR | LABORATORY | PHARMACY
deriving DecidableEq, Repr

/-- `enum UserStatus` of the Prisma schema. -/
inductive UserStatus
  | ACTIVE | INACTIVE | SUSPENDED | PENDING_VERIFICATION
deriving DecidableEq, Repr

/-- `enum AppointmentStatus` of the Prisma schema. -/
inductive AppointmentStatus
  | SCHEDULED | CONFIRMED | IN_PROGRESS | COMPLETED | CANCELLED | NO_SHOW | RESCHEDULED
deriving DecidableEq, Repr

/- ===================== Token issuer / verifier (config/auth.js) ===================== -/
/-- `JWT_CONFIG`: the two signing secrets read from the environment. The
issuer and audience are the fixed literals of the source. -/
structure JwtConfig where
  secret : String
  refreshSecret : String
deriving DecidableEq, Repr

/-- A signed JWT as seen by the application: its decoded claims (the
application payload serialized opaquely, the embedded `type` claim, issuer
and audience) together with the secret its signature verifies under.
Signature forgery is impossible in this model, matching the cryptographic
assumption of the JWT library. -/
structure Jwt where
  claims : String
  typeClaim : String
  issuer : String
  audience : String
  signedWith : String
deriving DecidableEq, Repr

/-- `type === "refresh" ? JWT_CONFIG.refreshSecret : JWT_CONFIG.secret`. -/
def secretFor (cfg : JwtConfig) (ty : String) : String :=
  if ty = "refresh" then cfg.refreshSecret else cfg.secret

/-- Model of `jwt.verify(token, secret, { issuer, audience })`: succeeds with
the decoded claims iff the signature verifies under `secret` and the issuer
and audience claims match; otherwise it throws (`none`). -/
def jwtVerify (t : Jwt) (secret iss aud : String) : Option Jwt :=
  if t.signedWith = secret ∧ t.issuer = iss ∧ t.audience = aud then some t else none

/-- `generateToken(payload, type)` from `config/auth.js`: signs `payload`
(plus the embedded `type` claim) with the secret selected by `type`, with
the fixed issuer `gaia-eps` and audience `gaia-users`. -/
def generateToken (cfg : JwtConfig) (payload : String) (ty : String) : Jwt :=
  { claims := payload
    typeClaim := ty
    issuer := "gaia-eps"
    audience := "gaia-users"
    signedWith := secretFor cfg ty }

/-- `verifyToken(token, type)` from `config/auth.js`: re-derives the secret
from the requested type, runs `jwt.verify` with the fixed issuer/audience,
and additionally throws when the embedded `type` claim differs from the
requested type. Errors are re-thrown to the caller (`Except.error`). -/
def verifyToken (cfg : JwtConfig) (t : Jwt) (ty : String) : Except String Jwt :=
  match jwtVerify t (secretFor cfg ty) "gaia-eps" "gaia-users" with
  | none => Except.error "jwt verification failed"
  | some decoded =>
    if decoded.typeClaim ≠ ty then
      Except.error ("Token type mismatch. Expected " ++ ty ++ ", got " ++ decoded.typeClaim)
    else Except.ok decoded

/- ===================== Sensitive-data encryption (medical-record.controller.js) ===================== -/
/-- A JSON-serializable JavaScript value. -/
inductive Json
  | null
  | bool (b : Bool)
  | num (n : Int)
  | str (s : String)
  | arr (xs : List Json)
  | obj (fields : List (String × Json))

/-- JavaScript truthiness of a JSON value: `null`, `false`, `0` and the
empty string are falsy; arrays and objects are always truthy. -/
def jsTruthy : Json → Bool
  | .null => false
  | .bool b => b
  | .num n => n != 0
  | .str s => s != ""
  | .arr _ => true
  | .obj _ => true

/-- A string holding serialized text: either the output of `JSON.stringify`
on some JSON value, or text that is not valid JSON (models the serialization
boundary without reproducing the concrete character encoding). -/
inductive JsonText
  | ofJson (j : Json)
  | notJson (raw : String)

/-- `JSON.parse`: inverts `JSON.stringify`; throws (`none`) on non-JSON text. -/
def jsonParse : JsonText → Option Json
  | .ofJson j => some j
  | .notJson _ => none

/-- A ciphertext string as stored in the `encryptedData` column: a well-formed
AES ciphertext of some plaintext under some key, or a corrupted string. -/
inductive CipherText
  | enc (key : String) (plain : JsonText)
  | corrupt (raw : String)

/-- `CryptoJS.AES.encrypt(plain, key).toString()`. -/
def aesEncrypt (key : String) (plain : JsonText) : CipherText :=
  .enc key plain

/-- `CryptoJS.AES.decrypt(c, key)` followed by `bytes.toString(Utf8)`:
recovers the plaintext under the correct key; under a wrong key or on a
corrupted ciphertext it yields garbage that is not valid JSON text (`none`,
which the caller's `JSON.parse` turns into a caught exception). -/
def aesDecryptUtf8 (key : String) : CipherText → Option JsonText
  | .enc k plain => if k = key then some plain else none
  | .corrupt _ => none

/-- The stored value produced by `encryptSensitiveData`: the original (falsy)
value returned unchanged, or a ciphertext string. -/
inductive EncValue
  | passthrough (v : Json)
  | cipher (c : CipherText)

/-- `encryptSensitiveData(data)`: `if (!data) return data;` then
`CryptoJS.AES.encrypt(JSON.stringify(data), ENCRYPTION_KEY).toString()`. -/
def encryptSensitiveData (key : String) (data : Json) : EncValue :=
  if jsTruthy data then .cipher (aesEncrypt key (.ofJson data)) else .passthrough data

/-- `decryptSensitiveData(encryptedData)`: `if (!encryptedData) return null;`
then AES-decrypt and `JSON.parse` inside a try/catch whose handler returns
`null`. A passed-through value from `encryptSensitiveData` is falsy, so it
returns `null`; decryption or parse failure also yields `null` (`none`). -/
def decryptSensitiveData (key : String) : EncValue → Option Json
  | .passthrough _ => none
  | .cipher c =>
    match aesDecryptUtf8 key c with
    | some t => jsonParse t
    | none => none

/-- JavaScript deep equality between a nullable result and an input value:
the result equals the input, or both are `null`. -/
def jsDeepEq (r : Option Json) (x : Json) : Prop :=
  r = some x ∨ (r = none ∧ x = Json.null)

/- ===================== Login lockout (auth.controller.js `login`) ===================== -/
/-- The login-relevant slice of a `User` row. -/
structure LoginState where
  loginAttempts : Nat
  lockedUntil : Option Nat
  status : UserStatus
  lastLogin : Option Nat
deriving DecidableEq, Repr

/-- `user.lockedUntil && new Date() < user.lockedUntil`. -/
def isLockedAt (st : LoginState) (now : Nat) : Bool :=
  match st.lockedUntil with
  | some l => now < l
  | none => false

/-- The outcome of one `login` call, by HTTP status and distinguishing
payload: 423 locked (with the unlock time), 401 invalid credentials (with
the remaining attempts before lockout), 403 inactive, or 200 success. -/
inductive LoginResult
  | locked (lockedUntil : Nat)
  | invalidCredentials (attemptsRemaining : Nat)
  | inactive (status : UserStatus)
  | success
deriving DecidableEq, Repr

/-- The `login` controller after the user lookup, for one account. `pwOk` is
the outcome of `bcrypt.compare`. Locked account ⇒ 423 with no state change;
wrong password ⇒ counter incremented, lock set to `now + 30` minutes once
the counter reaches 5, 401 reporting `max(0, 5 - attempts)` remaining;
non-Active status ⇒ 403 with no state change; otherwise success, resetting
the counter and the lock and stamping `lastLogin`. -/
def login (st : LoginState) (pwOk : Bool) (now : Nat) : LoginResult × LoginState :=
  if isLockedAt st now then
    (.locked (st.lockedUntil.getD 0), st)
  else if !pwOk then
    let attempts := st.loginAttempts + 1
    (.invalidCredentials (5 - attempts),
     { st with
        loginAttempts := attempts
        lockedUntil := if 5 ≤ attempts then some (now + 30 * 60 * 1000) else st.lockedUntil })
  else if st.status ≠ UserStatus.ACTIVE then
    (.inactive st.status, st)
  else
    (.success, { st with loginAttempts := 0, lockedUntil := none, lastLogin := some now })

/-- State reached after a sequence of login attempts, each given as
(password correct?, time). -/
def loginRun (st : LoginState) (steps : List (Bool × Nat)) : LoginState :=
  steps.foldl (fun s step => (login s step.1 step.2).2) st

/- ===================== Appointment controller (appointment.controller.js) ===================== -/
/-- The authenticated caller attached to the request by the auth middleware:
the user id and role, plus the ids of its optional patient and
medical-professional sub-profiles (`req.user.patient?.id`,
`req.user.medicalProfessional?.id`). -/
structure AuthedUser where
  id : String
  role : UserRole
  patientId : Option String
  professionalId : Option String
deriving DecidableEq, Repr

/-- The `User` row as declared by the Prisma schema (`model User`): it
carries `status : UserStatus` and has NO `isActive` column. -/
structure MedUser where
  id : String
  status : UserStatus
deriving DecidableEq, Repr

/-- The controller's read of `user.isActive`: the `User` model declares no
such property, so on every loaded row the access yields `undefined`, which
is falsy. -/
def MedUser.isActiveField (_ : MedUser) : Bool := false

/-- The `MedicalProfessional` row: the schema's `isActive` column (default
true) lives here, not on `User`. -/
structure MedicalProfessional where
  id : String
  isActive : Bool
deriving DecidableEq, Repr

/-- A professional loaded with `include: { user: true }`. -/
structure ProfWithUser where
  prof : MedicalProfessional
  user : MedUser
deriving DecidableEq, Repr

/-- The `Patient` row (id only; the rest is irrelevant here). -/
structure PatientRow where
  id : String
deriving DecidableEq, Repr

/-- The `Specialty` row (id only). -/
structure SpecialtyRow where
  id : String
deriving DecidableEq, Repr

/-- An `Appointment` row as created and updated by the controller. -/
structure Appointment where
  id : String
  patientId : String
  medicalProfessionalId : String
  specialtyId : Option String
  scheduledDate : Nat
  status : AppointmentStatus
  reason : String
  notes : Option String
  priority : String
  type : String
  createdById : String
deriving DecidableEq, Repr

/-- The tables touched by the appointment controller. -/
structure ApptDb where
  patients : List PatientRow
  professionals : List ProfWithUser
  specialties : List SpecialtyRow
  appointments : List Appointment
deriving DecidableEq, Repr

/-- The body of a creation request. Required fields are JS-truthy-checked
strings (empty models absent); `scheduledDate` is the parsed instant
(`none` models a missing date). `priority`/`type` take the destructuring
defaults when absent. -/
structure CreateApptReq where
  patientId : String
  medicalProfessionalId : String
  specialtyId : String
  scheduledDate : Option Nat
  reason : String
  notes : Option String
  priority : String := "NORMAL"
  type : String := "CONSULTATION"
deriving DecidableEq, Repr

/-- Responses of `createAppointment`, by HTTP status: 400, 404, 409 or 201. -/
inductive ApptResult
  | badRequest (error message : String)
  | notFound (error message : String)
  | conflict (error message : String)
  | created (a : Appointment)
deriving DecidableEq, Repr

/-- Whether a result is the 201 created outcome. -/
def ApptResult.isCreated : ApptResult → Bool
  | .created _ => true
  | _ => false

/-- The professional-availability filter of `createAppointment`:
`{ medicalProfessionalId, scheduledDate, status: { in: ["SCHEDULED",
"IN_PROGRESS"] } }` — note only those two statuses. -/
def conflictsWithProf (mpId : String) (d : Nat) (a : Appointment) : Bool :=
  a.medicalProfessionalId == mpId && a.scheduledDate == d &&
    (a.status == AppointmentStatus.SCHEDULED || a.status == AppointmentStatus.IN_PROGRESS)

/-- The patient-availability filter of `createAppointment`, same statuses. -/
def conflictsWithPatient (pid : String) (d : Nat) (a : Appointment) : Bool :=
  a.patientId == pid && a.scheduledDate == d &&
    (a.status == AppointmentStatus.SCHEDULED || a.status == AppointmentStatus.IN_PROGRESS)

/-- `createAppointment` from `appointment.controller.js`: required-field
check, future-date check, patient/professional/specialty existence checks
(the professional check reads `medicalProfessional.user.isActive`),
professional and patient conflict checks, then insert with status
`SCHEDULED` and the caller as creator. `now` is `new Date()` and `newId`
the id generated for the inserted row. -/
def createAppointment (db : ApptDb) (user : AuthedUser) (req : CreateApptReq)
    (now : Nat) (newId : String) : ApptResult × ApptDb :=
  if req.patientId = "" ∨ req.medicalProfessionalId = "" ∨ req.specialtyId = "" ∨
      req.scheduledDate = none ∨ req.reason = "" then
    (.badRequest "Datos incompletos" "Todos los campos obligatorios deben ser proporcionados", db)
  else
    let appointmentDate := req.scheduledDate.getD 0
    if appointmentDate ≤ now then
      (.badRequest "Fecha inválida" "La fecha de la cita debe ser futura", db)
    else
      match db.patients.find? (fun p => p.id == req.patientId) with
      | none => (.notFound "Paciente no encontrado" "El paciente especificado no existe", db)
      | some _ =>
        match db.professionals.find? (fun m => m.prof.id == req.medicalProfessionalId) with
        | none =>
          (.notFound "Médico no encontrado" "El médico especificado no existe o no está activo", db)
        | some mp =>
          if !(MedUser.isActiveField mp.user) then
            (.notFound "Médico no encontrado" "El médico especificado no existe o no está activo", db)
          else
            match db.specialties.find? (fun s => s.id == req.specialtyId) with
            | none =>
              (.notFound "Especialidad no encontrada" "La especialidad especificada no existe", db)
            | some _ =>
              if (db.appointments.find?
                    (conflictsWithProf req.medicalProfessionalId appointmentDate)).isSome then
                (.conflict "Horario no disponible"
                  "El médico ya tiene una cita programada en ese horario", db)
              else if (db.appointments.find?
                    (conflictsWithPatient req.patientId appointmentDate)).isSome then
                (.conflict "Paciente no disponible"
                  "El paciente ya tiene una cita programada en ese horario", db)
              else
                let appt : Appointment :=
                  { id := newId
                    patientId := req.patientId
                    medicalProfessionalId := req.medicalProfessionalId
                    specialtyId := some req.specialtyId
                    scheduledDate := appointmentDate
                    status := AppointmentStatus.SCHEDULED
                    reason := req.reason
                    notes := req.notes
                    priority := req.priority
                    type := req.type
                    createdById := user.id }
                (.created appt, { db with appointments := db.appointments ++ [appt] })

/-- A fully valid example database: one patient, one ACTIVE professional
whose `MedicalProfessional.isActive` flag is true, one specialty, no
existing appointments. -/
def exDb : ApptDb :=
  { patients := [⟨"p1"⟩]
    professionals := [⟨⟨"mp1", true⟩, ⟨"udoc", UserStatus.ACTIVE⟩⟩]
    specialties := [⟨"sp1"⟩]
    appointments := [] }

/-- An admin caller. -/
def exAdmin : AuthedUser := ⟨"admin1", UserRole.ADMIN, none, none⟩

/-- A complete, future-dated creation request referencing the rows of `exDb`. -/
def exReq : CreateApptReq :=
  { patientId := "p1"
    medicalProfessionalId := "mp1"
    specialtyId := "sp1"
    scheduledDate := some 1000
    reason := "Consulta de control general"
    notes := none }

/-- A database holding one SCHEDULED appointment for professional `mp1` at
instant 1000, so the claimed 409 professional-conflict case applies to
`exReq2`. -/
def exDbConflict : ApptDb :=
  { patients := [⟨"p1"⟩, ⟨"p2"⟩]
    professionals := [⟨⟨"mp1", true⟩, ⟨"udoc", UserStatus.ACTIVE⟩⟩]
    specialties := [⟨"sp1"⟩]
    appointments :=
      [{ id := "a0"
         patientId := "p1"
         medicalProfessionalId := "mp1"
         specialtyId := some "sp1"
         scheduledDate := 1000
         status := AppointmentStatus.SCHEDULED
         reason := "Previa"
         notes := none
         priority := "NORMAL"
         type := "CONSULTATION"
         createdById := "admin1" }] }

/-- A valid request for a DIFFERENT patient but the same professional `mp1`
and the same instant 1000 as the existing appointment. -/
def exReq2 : CreateApptReq :=
  { patientId := "p2"
    medicalProfessionalId := "mp1"
    specialtyId := "sp1"
    scheduledDate := some 1000
    reason := "Evaluación preventiva"
    notes := none }

/- ===================== Cancellation (appointment.controller.js `cancelAppointment`) ===================== -/
/-- The clinical roles the controllers treat alike. -/
def clinicalRoles : List UserRole := [UserRole.DOCTOR, UserRole.SPECIALIST, UserRole.PSYCHOLOGIST]

/-- The `canCancel` permission: Admin, the owning patient, or the assigned
professional. -/
def canCancel (u : AuthedUser) (a : Appointment) : Bool :=
  u.role == UserRole.ADMIN ||
  (u.role == UserRole.PATIENT && u.patientId == some a.patientId) ||
  (clinicalRoles.contains u.role && u.professionalId == some a.medicalProfessionalId)

/-- JS truthiness of the optional `reason` body field (`undefined` and the
empty string are falsy). -/
def reasonTruthy : Option String → Bool
  | some r => r != ""
  | none => false

/-- The update applied on cancellation: status `CANCELLED` and, when a
truthy reason was supplied, notes replaced by
`` `${appointment.notes || ""}\n\nCancelada: ${reason}`.trim() ``, otherwise
the notes unchanged. -/
def applyCancel (reason : Option String) (a : Appointment) : Appointment :=
  { a with
     status := AppointmentStatus.CANCELLED
     notes :=
       if reasonTruthy reason then
         some (((a.notes.getD "") ++ "\n\nCancelada: " ++ reason.getD "").trim)
       else a.notes }

/-- Responses of `cancelAppointment`: 404, 403, the two distinguished 400s,
or 200 with the updated appointment. -/
inductive CancelResult
  | notFound (error message : String)
  | forbidden (error message : String)
  | badRequest (error message : String)
  | ok (a : Appointment)
deriving DecidableEq, Repr

/-- `cancelAppointment` from `appointment.controller.js`. -/
def cancelAppointment (db : ApptDb) (u : AuthedUser) (apptId : String)
    (reason : Option String) : CancelResult × ApptDb :=
  match db.appointments.find? (fun a => a.id == apptId) with
  | none => (.notFound "Cita no encontrada" "La cita especificada no existe", db)
  | some appointment =>
    if !(canCancel u appointment) then
      (.forbidden "Acceso denegado" "No tienes permisos para cancelar esta cita", db)
    else if appointment.status == AppointmentStatus.CANCELLED then
      (.badRequest "Cita ya cancelada" "Esta cita ya ha sido cancelada", db)
    else if appointment.status == AppointmentStatus.COMPLETED then
      (.badRequest "Cita completada" "No se puede cancelar una cita que ya fue completada", db)
    else
      let upd := applyCancel reason appointment
      (.ok upd,
       { db with appointments := db.appointments.map (fun a => if a.id == apptId then upd else a) })

/- ===================== Medical-record controller (medical-record.controller.js) ===================== -/
/-- Modelled from the spec: the richer `MedicalRecord` variant that the
medical-record controller reads and writes (discrete `diagnosis`,
`treatment`, `notes`, JSON-encoded structured fields, `recordType`,
`createdById`, `encryptedData`, an optional linked appointment). The Prisma
schema present under src/ declares only the reduced title/content variant,
so this entity shape follows §3 of the spec, which documents the richer
variant the controller targets. `appointmentProfId` is the
`medicalProfessionalId` of the linked appointment (`none` when the record
has no appointment). -/
structure MedicalRecord where
  id : String
  patientId : String
  createdById : String
  recordType : String
  appointmentId : Option String
  appointmentProfId : Option String
  diagnosis : Option String
  treatment : Option String
  notes : Option String
  symptoms : Option JsonText
  vitalSigns : Option JsonText
  medications : Option JsonText
  allergies : Option JsonText
  familyHistory : Option JsonText
  personalHistory : Option JsonText
  physicalExam : Option JsonText
  labResults : Option JsonText
  imagingResults : Option JsonText
  recommendations : Option JsonText
  followUpDate : Option String
  icd10Codes : Option JsonText
  encryptedData : Option CipherText
  createdAt : Nat

/-- Lower-cased character list of a string (models the case-insensitive
collation requested with `mode: "insensitive"`). -/
def lcList (s : String) : List Char := s.data.map Char.toLower

/-- Substring test on character lists. -/
def listContainsSub (needle hay : List Char) : Bool :=
  (List.range (hay.length + 1)).any (fun i => ((hay.drop i).take needle.length) == needle)

/-- Prisma `{ contains: term, mode: "insensitive" }` on a nullable text
column: a null column matches nothing. -/
def ciContains (field : Option String) (term : String) : Bool :=
  match field with
  | some s => listContainsSub (lcList term) (lcList s)
  | none => false

/-- The free-text search disjunction of `getMedicalRecords`: the term must
occur in `diagnosis`, `notes` or `treatment`. -/
def recMatchesSearch (r : MedicalRecord) (term : String) : Bool :=
  ciContains r.diagnosis term || ciContains r.notes term || ciContains r.treatment term

/-- The two shapes the controller ever stores in `where.OR`: the search
disjunction, or the clinical-role visibility disjunction
`[{ createdById }, { appointment: { medicalProfessionalId } }]`. -/
inductive RecOrClause
  | search (term : String)
  | roleScope (userId : String) (profId : Option String)

/-- Semantics of an `OR` clause on one record. For `roleScope` with an
undefined professional id, Prisma drops the inner condition and the nested
relation filter degenerates to requiring a linked appointment. -/
def recOrMatches (r : MedicalRecord) : RecOrClause → Bool
  | .search term => recMatchesSearch r term
  | .roleScope uid profId =>
    r.createdById == uid ||
      (match profId with
       | some p => r.appointmentProfId == some p
       | none => r.appointmentId.isSome)

/-- The `where` object assembled by `getMedicalRecords`; `none` models a
field left `undefined`, which Prisma ignores. -/
structure RecWhere where
  patientId : Option String
  appointmentId : Option String
  recordType : Option String
  createdFrom : Option Nat
  createdTo : Option Nat
  orClause : Option RecOrClause

/-- A scalar equality filter: ignored when undefined. -/
def optEq (filter : Option String) (v : String) : Bool :=
  match filter with
  | some f => v == f
  | none => true

/-- Whether a record satisfies a `where` object. -/
def recMatchesWhere (w : RecWhere) (r : MedicalRecord) : Bool :=
  optEq w.patientId r.patientId &&
  (match w.appointmentId with
   | some f => r.appointmentId == some f
   | none => true) &&
  optEq w.recordType r.recordType &&
  (match w.createdFrom with
   | some t => decide (t ≤ r.createdAt)
   | none => true) &&
  (match w.createdTo with
   | some t => decide (r.createdAt ≤ t)
   | none => true) &&
  (match w.orClause with
   | some c => recOrMatches r c
   | none => true)

/-- The parsed query string of the listing endpoint. Optional string
parameters may be present but empty (JS-falsy); dates are parsed instants. -/
structure RecQuery where
  page : Nat := 1
  limit : Nat := 10
  patientId : Option String := none
  appointmentId : Option String := none
  recordType : Option String := none
  startDate : Option Nat := none
  endDate : Option Nat := none
  search : Option String := none

/-- A query parameter guarded by `if (param)`: dropped when absent or empty. -/
def optTruthy : Option String → Option String
  | some s => if s = "" then none else some s
  | none => none

/-- The `where`-construction of `getMedicalRecords`, line by line: scalar
filters, date range, then `where.OR` set to the search disjunction when a
truthy search term is supplied, then the role restriction — a Patient
caller has `where.patientId` OVERWRITTEN by their own patient-profile id,
and a clinical caller (Doctor/Specialist/Psychologist) has `where.OR`
OVERWRITTEN by the visibility disjunction, discarding any search clause. -/
def buildRecordsWhere (q : RecQuery) (u : AuthedUser) : RecWhere :=
  let w : RecWhere :=
    { patientId := optTruthy q.patientId
      appointmentId := optTruthy q.appointmentId
      recordType := optTruthy q.recordType
      createdFrom := q.startDate
      createdTo := q.endDate
      orClause := none }
  let w :=
    match q.search with
    | some s => if s = "" then w else { w with orClause := some (.search s) }
    | none => w
  if u.role = UserRole.PATIENT then { w with patientId := u.patientId }
  else if clinicalRoles.contains u.role then
    { w with orClause := some (.roleScope u.id u.professionalId) }
  else w

/-- `getMedicalRecords`: the page of records matching the assembled `where`
(ordering by `createdAt` descending is abstracted away — every statement
below quantifies over membership in the result, which ordering does not
affect; `skip`/`take` follow the source). -/
def getMedicalRecords (db : List MedicalRecord) (q : RecQuery) (u : AuthedUser) :
    List MedicalRecord :=
  ((db.filter (recMatchesWhere (buildRecordsWhere q u))).drop ((q.page - 1) * q.limit)).take
    q.limit

/-- A doctor caller with a professional profile. -/
def exDoctor : AuthedUser := ⟨"u1", UserRole.DOCTOR, none, some "mp1"⟩

/-- A record created by user `u1`, with no occurrence of "xyz" anywhere. -/
def exRec : MedicalRecord :=
  { id := "r1"
    patientId := "p1"
    createdById := "u1"
    recordType := "CONSULTATION"
    appointmentId := none
    appointmentProfId := none
    diagnosis := some "Gripa"
    treatment := none
    notes := none
    symptoms := none
    vitalSigns := none
    medications := none
    allergies := none
    familyHistory := none
    personalHistory := none
    physicalExam := none
    labResults := none
    imagingResults := none
    recommendations := none
    followUpDate := none
    icd10Codes := none
    encryptedData := none
    createdAt := 5 }

/-- A listing request supplying the search term "xyz". -/
def exSearchQuery : RecQuery := { search := some "xyz" }

/- ===================== Record update (medical-record.controller.js `updateMedicalRecord`) ===================== -/
/-- The body of an update request. Plain-text fields are `Option String`
(`none` = absent, `some ""` = supplied but empty, hence JS-falsy); `notes`
distinguishes absent (`none`) from supplied (`some v`, where `v` may be
null or empty) because the code tests `notes !== undefined` rather than
truthiness; structured fields carry JSON values. -/
structure UpdateRecReq where
  diagnosis : Option String := none
  treatment : Option String := none
  notes : Option (Option String) := none
  symptoms : Option Json := none
  vitalSigns : Option Json := none
  medications : Option Json := none
  allergies : Option Json := none
  familyHistory : Option Json := none
  personalHistory : Option Json := none
  physicalExam : Option Json := none
  labResults : Option Json := none
  imagingResults : Option Json := none
  recommendations : Option Json := none
  followUpDate : Option String := none
  icd10Codes : Option Json := none
  sensitiveData : Option Json := none

/-- JS truthiness of an optional string field (`if (field)`). -/
def strFieldTruthy : Option String → Bool
  | some s => s != ""
  | none => false

/-- JS truthiness of an optional JSON-valued field (`if (field)`). -/
def jsonFieldTruthy : Option Json → Bool
  | some j => jsTruthy j
  | none => false

/-- The `updateData` object of `updateMedicalRecord` applied to the stored
record: each field enters `updateData` only under its own guard —
truthiness for every content field except `notes`, which enters whenever it
is not `undefined`; structured fields are `JSON.stringify`-ed; a truthy
`sensitiveData` is re-encrypted into `encryptedData`. Fields outside
`updateData` (in particular `patientId`, `createdById`, `recordType`, the
appointment link, `createdAt`) are untouched by the update. -/
def updateMedicalRecordData (key : String) (req : UpdateRecReq) (r : MedicalRecord) :
    MedicalRecord :=
  { r with
     diagnosis := if strFieldTruthy req.diagnosis then req.diagnosis else r.diagnosis
     treatment := if strFieldTruthy req.treatment then req.treatment else r.treatment
     notes :=
       match req.notes with
       | some v => v
       | none => r.notes
     symptoms :=
       if jsonFieldTruthy req.symptoms then req.symptoms.map JsonText.ofJson else r.symptoms
     vitalSigns :=
       if jsonFieldTruthy req.vitalSigns then req.vitalSigns.map JsonText.ofJson else r.vitalSigns
     medications :=
       if jsonFieldTruthy req.medications then req.medications.map JsonText.ofJson
       else r.medications
     allergies :=
       if jsonFieldTruthy req.allergies then req.allergies.map JsonText.ofJson else r.allergies
     familyHistory :=
       if jsonFieldTruthy req.familyHistory then req.familyHistory.map JsonText.ofJson
       else r.familyHistory
     personalHistory :=
       if jsonFieldTruthy req.personalHistory then req.personalHistory.map JsonText.ofJson
       else r.personalHistory
     physicalExam :=
       if jsonFieldTruthy req.physicalExam then req.physicalExam.map JsonText.ofJson
       else r.physicalExam
     labResults :=
       if jsonFieldTruthy req.labResults then req.labResults.map JsonText.ofJson else r.labResults
     imagingResults :=
       if jsonFieldTruthy req.imagingResults then req.imagingResults.map JsonText.ofJson
       else r.imagingResults
     recommendations :=
       if jsonFieldTruthy req.recommendations then req.recommendations.map JsonText.ofJson
       else r.recommendations
     followUpDate :=
       if strFieldTruthy req.followUpDate then req.followUpDate else r.followUpDate
     icd10Codes :=
       if jsonFieldTruthy req.icd10Codes then req.icd10Codes.map JsonText.ofJson else r.icd10Codes
     encryptedData :=
       match req.sensitiveData with
       | some j => if jsTruthy j then some (aesEncrypt key (JsonText.ofJson j)) else r.encryptedData
       | none => r.encryptedData }

/-- `canUpdate`: Admin or the record's original creator. -/
def canUpdateRecord (u : AuthedUser) (r : MedicalRecord) : Bool :=
  u.role == UserRole.ADMIN || r.createdById == u.id

/-- Responses of `updateMedicalRecord`: 404, 403, or 200 with the updated
record. -/
inductive UpdateRecResult
  | notFound (error message : String)
  | forbidden (error message : String)
  | ok (r : MedicalRecord)

/-- `updateMedicalRecord` from `medical-record.controller.js`. -/
def updateMedicalRecord (key : String) (db : List MedicalRecord) (u : AuthedUser)
    (id : String) (req : UpdateRecReq) : UpdateRecResult × List MedicalRecord :=
  match db.find? (fun r => r.id == id) with
  | none => (.notFound "Registro médico no encontrado" "El registro médico especificado no existe", db)
  | some existing =>
    if !(canUpdateRecord u existing) then
      (.forbidden "Acceso denegado" "No tienes permisos para actualizar este registro médico", db)
    else
      let upd := updateMedicalRecordData key req existing
      (.ok upd, db.map (fun r => if r.id == id then upd else r))

/-- A stored record with a non-empty diagnosis, created by `u1`. -/
def exStored : MedicalRecord :=
  { exRec with id := "r9", diagnosis := some "Hipertensión", notes := some "control" }

/-- An update request clearing attempts: empty diagnosis (falsy, hence
ignored), `notes` explicitly set to the empty string, everything else
absent. -/
def exUpdReq : UpdateRecReq := { diagnosis := some "", notes := some (some "") }

/- ======================= Theorems ======================= -/

theorem cedulaLoop_eq_specSumFrom (ds : List Nat) :
    ∀ k sum, cedulaLoop ds (cedulaMult k) sum = sum + specSumFrom k ds := by
  induction ds with
  | nil => intro k sum; simp [cedulaLoop, specSumFrom]
  | cons d ds ih =>
    intro k sum
    have hflip : (if cedulaMult k = 2 then 1 else 2) = cedulaMult (k + 1) := by
      rcases Nat.even_or_odd k with hk | hk
      · have h0 : k % 2 = 0 := Nat.even_iff.mp hk
        have h1 : (k + 1) % 2 = 1 := by omega
        simp [cedulaMult, h0, h1]
      · have h0 : k % 2 = 1 := Nat.odd_iff.mp hk
        have h1 : (k + 1) % 2 = 0 := by omega
        simp [cedulaMult, h0, h1]
    simp only [cedulaLoop, specSumFrom, hflip, ih (k + 1)]
    omega

/-- C8: for every input string the national-ID validator agrees with the
checksum procedure described by the spec: strip non-digits, require length
6..10, and compare the last digit with `(10 - (sum % 10)) % 10`, the sum
being taken over the remaining digits least-significant first with
alternating multipliers 2,1,2,1,... and products over 9 replaced by the sum
of their decimal digits. Being a total Lean function, it returns a boolean
and cannot throw. -/
theorem validateCedulaColombia_matches_spec (s : String) :
    validateCedulaColombia s = specValidateCedula s := by
  unfold validateCedulaColombia specValidateCedula
  cases h : stripNonDigits s with
  | nil => simp
  | cons d ds =>
    simp only []
    split
    · rfl
    · cases hrev : (d :: ds).reverse with
      | nil => simp at hrev
      | cons check rest =>
        have : cedulaLoop rest 2 0 = specSumFrom 0 rest := by
          have := cedulaLoop_eq_specSumFrom rest 0 0
          simpa [cedulaMult] using this
        simp [this]

/-- Sanity: a correctly checksummed 8-digit id is accepted (check digit of
1234567 is computed by the documented algorithm). -/
theorem validateCedulaColombia_example : validateCedulaColombia "12345674" = true := by decide

/-- C9: the four documented shapes are accepted and junk rejected, but a
number written with parentheses around an otherwise accepted digit sequence
is REJECTED: the stripping regex's character class `[\s\-$$$$]` contains
whitespace, hyphen and dollar but not parentheses, so `"(300) 123-4567"`
keeps its parentheses and matches no pattern. The claim (and the code's own
comment about removing special characters) says it would be accepted. -/
theorem validateColombianPhone_eval :
    validateColombianPhone "+573001234567" = true ∧
    validateColombianPhone "573001234567" = true ∧
    validateColombianPhone "3001234567" = true ∧
    validateColombianPhone "3001234" = true ∧
    validateColombianPhone "12345" = false ∧
    validateColombianPhone "notaphone" = false ∧
    validateColombianPhone "(300) 123-4567" = false ∧
    validateColombianPhone "$300$1234567" = true := by
  decide

/-- C4: `verifyToken t ty` returns the decoded payload iff `t` is signed
with the secret belonging to `ty`, carries the fixed issuer `gaia-eps` and
audience `gaia-users`, and its embedded type claim equals `ty`; in every
other case it throws. Consequently a token issued as `refresh` is rejected
when presented as an `access` token and vice versa (whether or not the two
secrets coincide). -/
theorem verifyToken_type_isolation :
    (∀ cfg t ty d, verifyToken cfg t ty = Except.ok d ↔
      (d = t ∧ t.signedWith = secretFor cfg ty ∧ t.issuer = "gaia-eps" ∧
        t.audience = "gaia-users" ∧ t.typeClaim = ty)) ∧
    (∀ cfg payload,
      (verifyToken cfg (generateToken cfg payload "refresh") "access").isOk = false ∧
      (verifyToken cfg (generateToken cfg payload "access") "refresh").isOk = false) := by
  constructor
  · intro cfg t ty d
    by_cases hcond : t.signedWith = secretFor cfg ty ∧ t.issuer = "gaia-eps" ∧
        t.audience = "gaia-users"
    · by_cases hty : t.typeClaim = ty
      · simp [verifyToken, jwtVerify, hcond, hty, hcond.1, hcond.2.1, hcond.2.2, eq_comm]
      · simp [verifyToken, jwtVerify, hcond, hty]
    · simp only [verifyToken, jwtVerify, if_neg hcond]
      constructor
      · intro h
        exact absurd h (by simp)
      · rintro ⟨_, h1, h2, h3, _⟩
        exact absurd ⟨h1, h2, h3⟩ hcond
  · intro cfg payload
    constructor
    · by_cases hsec : cfg.refreshSecret = cfg.secret <;>
        simp [verifyToken, jwtVerify, generateToken, secretFor, hsec, Except.isOk, Except.toBool]
    · by_cases hsec : cfg.secret = cfg.refreshSecret <;>
        simp [verifyToken, jwtVerify, generateToken, secretFor, hsec, Except.isOk, Except.toBool]

/-- C6 counterexample: the JSON-serializable value `false` does not survive
the round trip — `encryptSensitiveData` passes falsy values through
unencrypted (`if (!data) return data`) and `decryptSensitiveData` maps them
to `null`, which is not deeply equal to `false`. -/
theorem decrypt_encrypt_false_not_id :
    decryptSensitiveData "k" (encryptSensitiveData "k" (Json.bool false)) = none ∧
    ¬ jsDeepEq (decryptSensitiveData "k" (encryptSensitiveData "k" (Json.bool false)))
        (Json.bool false) := by
  constructor
  · rfl
  · intro h
    rcases h with h | ⟨_, h⟩
    · simp [decryptSensitiveData, encryptSensitiveData, jsTruthy] at h
    · exact absurd h (by simp)

/-- C6 (amended): the round trip is the identity for every TRUTHY
JSON-serializable value; falsy values (`false`, `0`, `""`) are passed
through unencrypted and decrypt to an absent value; `null` round-trips to
`null`; a corrupted ciphertext and a ciphertext under a different key both
yield an absent value rather than an error; an absent (`null`) input yields
an absent result. -/
theorem decrypt_encrypt_roundtrip (key : String) (x : Json) (hx : jsTruthy x = true) :
    decryptSensitiveData key (encryptSensitiveData key x) = some x ∧
    (∀ y : Json, jsTruthy y = false →
      encryptSensitiveData key y = .passthrough y ∧
      decryptSensitiveData key (encryptSensitiveData key y) = none) ∧
    jsDeepEq (decryptSensitiveData key (encryptSensitiveData key Json.null)) Json.null ∧
    (∀ raw, decryptSensitiveData key (.cipher (.corrupt raw)) = none) ∧
    (∀ k p, k ≠ key → decryptSensitiveData key (.cipher (.enc k p)) = none) := by
  refine ⟨?_, ?_, ?_, ?_, ?_⟩
  · simp [encryptSensitiveData, hx, decryptSensitiveData, aesEncrypt, aesDecryptUtf8, jsonParse]
  · intro y hy
    simp [encryptSensitiveData, hy, decryptSensitiveData]
  · right
    simp [encryptSensitiveData, jsTruthy, decryptSensitiveData]
  · intro raw
    simp [decryptSensitiveData, aesDecryptUtf8]
  · intro k p hk
    simp [decryptSensitiveData, aesDecryptUtf8, hk]

/-- C6 witness: the amended round-trip theorem applied to the concrete
truthy payload `{"dx": "J11"}`. -/
theorem decrypt_encrypt_roundtrip_witness :
    decryptSensitiveData "gaia-default-key-32-characters"
      (encryptSensitiveData "gaia-default-key-32-characters"
        (Json.obj [("dx", Json.str "J11")])) = some (Json.obj [("dx", Json.str "J11")]) :=
  (decrypt_encrypt_roundtrip "gaia-default-key-32-characters"
    (Json.obj [("dx", Json.str "J11")]) rfl).1

/-- C3 counterexample: an account whose status is `PENDING_VERIFICATION`
(the default for every self-registered user), with 5 failed attempts and an
expired lock, presents the CORRECT password after the lock window has
elapsed: the code answers 403 `USER_INACTIVE` and neither resets the
failed-attempt counter nor clears the lock, while the claim promises
success and a reset for every account. -/
theorem login_after_lock_not_always_success :
    login ⟨5, some 1000, UserStatus.PENDING_VERIFICATION, none⟩ true 2000 =
      (LoginResult.inactive UserStatus.PENDING_VERIFICATION,
        ⟨5, some 1000, UserStatus.PENDING_VERIFICATION, none⟩) := by
  decide

/-- C3 (amended): for every account state — (a) a failed password attempt
while no lock is active increments the failed-attempt counter and answers
401 with `5 - newCount` (truncated at 0) attempts remaining; (b) when that
increment reaches 5 or more, a lock 30 minutes in the future is set, and in
particular five consecutive failed attempts from a fresh counter leave the
account locked until 30 minutes after the fifth attempt; (c) while the lock
lies in the future every attempt answers 423 with the unlock time and
changes nothing, regardless of password correctness; (d) a correct password
presented once the lock window has elapsed succeeds, resets the counter to
zero and clears the lock, PROVIDED the account status is Active (a
non-Active account is answered 403 with no state change instead). -/
theorem login_lockout_behaviour (st : LoginState) (now : Nat) :
    (isLockedAt st now = false →
      login st false now =
        (.invalidCredentials (5 - (st.loginAttempts + 1)),
         { st with
            loginAttempts := st.loginAttempts + 1
            lockedUntil :=
              if 5 ≤ st.loginAttempts + 1 then some (now + 30 * 60 * 1000)
              else st.lockedUntil })) ∧
    (∀ status last t1 t2 t3 t4 t5,
      loginRun ⟨0, none, status, last⟩
          [(false, t1), (false, t2), (false, t3), (false, t4), (false, t5)] =
        ⟨5, some (t5 + 30 * 60 * 1000), status, last⟩) ∧
    (∀ l pwOk, st.lockedUntil = some l → now < l →
      login st pwOk now = (.locked l, st)) ∧
    (∀ l, st.lockedUntil = some l → l ≤ now → st.status = UserStatus.ACTIVE →
      login st true now = (.success, ⟨0, none, UserStatus.ACTIVE, some now⟩)) ∧
    (∀ l, st.lockedUntil = some l → l ≤ now → st.status ≠ UserStatus.ACTIVE →
      login st true now = (.inactive st.status, st)) := by
  refine ⟨?_, ?_, ?_, ?_, ?_⟩
  · intro hnl
    simp [login, hnl]
  · intro status last t1 t2 t3 t4 t5
    simp [loginRun, login, isLockedAt]
  · intro l pwOk hl hlt
    simp [login, isLockedAt, hl, hlt]
  · intro l hl hle hact
    have hnl : isLockedAt st now = false := by
      simp [isLockedAt, hl]; omega
    simp [login, hnl, hact]
  · intro l hl hle hact
    have hnl : isLockedAt st now = false := by
      simp [isLockedAt, hl]; omega
    simp [login, hnl, hact]

/-- C3 witness: the amended lockout theorem instantiated at a concrete
Active account: the fourth-to-fifth failed attempt at time 10 locks it, and
a correct password at time 10 + 30 minutes succeeds and resets the state. -/
theorem login_lockout_behaviour_witness :
    login ⟨4, none, UserStatus.ACTIVE, none⟩ false 10 =
      (.invalidCredentials 0, ⟨5, some (10 + 30 * 60 * 1000), UserStatus.ACTIVE, none⟩) ∧
    login ⟨5, some 1800010, UserStatus.ACTIVE, none⟩ true 1800010 =
      (.success, ⟨0, none, UserStatus.ACTIVE, some 1800010⟩) := by
  constructor
  · have h := (login_lockout_behaviour ⟨4, none, UserStatus.ACTIVE, none⟩ 10).1 (by decide)
    simpa using h
  · exact (login_lockout_behaviour ⟨5, some 1800010, UserStatus.ACTIVE, none⟩ 1800010).2.2.2.1
      1800010 rfl (by decide) rfl

/-- C1: a creation request in which the patient exists, the professional
exists and is active (both its `MedicalProfessional.isActive` flag and its
user's status), the specialty exists, the date is strictly in the future
and no conflicting appointment exists is nevertheless answered 404 "Médico
no encontrado": the controller tests `medicalProfessional.user.isActive`,
a property the `User` model does not declare, so the test reads `undefined`
and fails for every professional. Consequently no request whatsoever is
ever answered 201: the create branch is dead code. -/
theorem createAppointment_valid_request_rejected :
    createAppointment exDb exAdmin exReq 50 "a1" =
      (ApptResult.notFound "Médico no encontrado"
        "El médico especificado no existe o no está activo", exDb) ∧
    (∀ db user req now newId,
      ((createAppointment db user req now newId).1).isCreated = false) := by
  constructor
  · decide
  · intro db user req now newId
    unfold createAppointment
    split
    · rfl
    · simp only []
      split
      · rfl
      · split
        · rfl
        · split
          · rfl
          · simp [MedUser.isActiveField, ApptResult.isCreated]

/-- C2: a creation request colliding with an existing SCHEDULED appointment
of the same professional at the same instant — which the claim says must be
answered 409 — is instead answered 404 "Médico no encontrado": the dead
`user.isActive` professional check fires before the conflict checks are
ever reached, so the mutual-exclusion invariants are never enforced (and
even the in-code conflict filter covers only the statuses SCHEDULED and
IN_PROGRESS, not all non-cancelled/non-completed statuses). -/
theorem createAppointment_conflict_not_409 :
    createAppointment exDbConflict exAdmin exReq2 50 "a1" =
      (ApptResult.notFound "Médico no encontrado"
        "El médico especificado no existe o no está activo", exDbConflict) ∧
    conflictsWithProf ("mp1") 1000 ((exDbConflict.appointments).get ⟨0, by decide⟩) = true := by
  constructor
  · decide
  · decide

/-- C7: for every cancellation request by an authorized caller on an
existing appointment: an already-Cancelled appointment is rejected 400
"Cita ya cancelada"; an already-Completed one is rejected 400 with the
distinct "Cita completada" message; in every other status the operation
sets the status to Cancelled and, exactly when a (truthy) reason was
supplied, replaces the notes by the trimmed concatenation of the existing
notes and the "Cancelada: <reason>" annotation — with no reason the notes
are unchanged. -/
theorem cancelAppointment_behaviour (db : ApptDb) (u : AuthedUser) (apptId : String)
    (reason : Option String) (appt : Appointment)
    (hfind : db.appointments.find? (fun a => a.id == apptId) = some appt)
    (hperm : canCancel u appt = true) :
    (appt.status = AppointmentStatus.CANCELLED →
      cancelAppointment db u apptId reason =
        (.badRequest "Cita ya cancelada" "Esta cita ya ha sido cancelada", db)) ∧
    (appt.status = AppointmentStatus.COMPLETED →
      cancelAppointment db u apptId reason =
        (.badRequest "Cita completada" "No se puede cancelar una cita que ya fue completada", db)) ∧
    (appt.status ≠ AppointmentStatus.CANCELLED → appt.status ≠ AppointmentStatus.COMPLETED →
      cancelAppointment db u apptId reason =
        (.ok (applyCancel reason appt),
         { db with appointments :=
            db.appointments.map (fun a => if a.id == apptId then applyCancel reason appt else a) }) ∧
      (applyCancel reason appt).status = AppointmentStatus.CANCELLED ∧
      (∀ r, reason = some r → r ≠ "" →
        (applyCancel reason appt).notes =
          some (((appt.notes.getD "") ++ "\n\nCancelada: " ++ r).trim)) ∧
      (reasonTruthy reason = false → (applyCancel reason appt).notes = appt.notes)) := by
  refine ⟨?_, ?_, ?_⟩
  · intro hst
    simp [cancelAppointment, hfind, hperm, hst]
  · intro hst
    simp [cancelAppointment, hfind, hperm, hst]
  · intro h1 h2
    refine ⟨?_, ?_, ?_, ?_⟩
    · simp [cancelAppointment, hfind, hperm, h1, h2]
    · simp [applyCancel]
    · intro r hr hne
      simp [applyCancel, reasonTruthy, hr, hne]
    · intro hf
      simp [applyCancel, hf]

/-- C7 witness: cancelling the SCHEDULED appointment of `exDbConflict` as
admin with reason "paro" succeeds and stamps the annotation; the theorem is
applied at that concrete input. -/
theorem cancelAppointment_behaviour_witness :
    (cancelAppointment exDbConflict exAdmin "a0" (some "paro")).1 =
      CancelResult.ok (applyCancel (some "paro") (exDbConflict.appointments.get ⟨0, by decide⟩)) ∧
    (applyCancel (some "paro") (exDbConflict.appointments.get ⟨0, by decide⟩)).notes =
      some ((((exDbConflict.appointments.get ⟨0, by decide⟩).notes.getD "") ++
        "\n\nCancelada: " ++ "paro").trim) := by
  have h := cancelAppointment_behaviour exDbConflict exAdmin "a0" (some "paro")
      (exDbConflict.appointments.get ⟨0, by decide⟩) (by decide) (by decide)
  have h3 := h.2.2 (by decide) (by decide)
  constructor
  · rw [h3.1]
  · exact h3.2.2.1 "paro" rfl (by decide)

theorem mem_getMedicalRecords_matches {db : List MedicalRecord} {q : RecQuery}
    {u : AuthedUser} {r : MedicalRecord} (h : r ∈ getMedicalRecords db q u) :
    recMatchesWhere (buildRecordsWhere q u) r = true := by
  unfold getMedicalRecords at h
  have h1 := (List.take_sublist _ _).subset h
  have h2 := (List.drop_sublist _ _).subset h1
  exact (List.mem_filter.mp h2).2

/-- C5 counterexample: a clinical-role caller supplies the search term
"xyz"; the record they created — which matches the term in none of its
diagnosis, notes or treatment — is returned anyway, because the
clinical-role restriction overwrites `where.OR` and silently discards the
search clause. -/
theorem getMedicalRecords_search_dropped_for_clinical :
    getMedicalRecords [exRec] exSearchQuery exDoctor = [exRec] ∧
    recMatchesSearch exRec "xyz" = false := by
  constructor
  · rfl
  · rfl

/-- C5 (amended): role scoping always holds — a Patient-role caller with a
patient profile receives only records of that profile, and a clinical-role
caller with a professional profile receives only records they created or
records whose linked appointment is assigned to them — and a supplied
search term is honoured (every returned record matches it in diagnosis,
notes or treatment) for every NON-clinical caller; for clinical callers the
role restriction replaces the search clause, so their results need not
match the term. -/
theorem getMedicalRecords_role_scoping (db : List MedicalRecord) (q : RecQuery)
    (u : AuthedUser) :
    (∀ pid, u.role = UserRole.PATIENT → u.patientId = some pid →
      ∀ r ∈ getMedicalRecords db q u, r.patientId = pid) ∧
    (∀ mpid, clinicalRoles.contains u.role = true → u.professionalId = some mpid →
      ∀ r ∈ getMedicalRecords db q u,
        r.createdById = u.id ∨ r.appointmentProfId = some mpid) ∧
    (∀ s, clinicalRoles.contains u.role = false → q.search = some s → s ≠ "" →
      ∀ r ∈ getMedicalRecords db q u, recMatchesSearch r s = true) := by
  refine ⟨?_, ?_, ?_⟩
  · intro pid hrole hpid r hr
    have hm := mem_getMedicalRecords_matches hr
    simp only [buildRecordsWhere] at hm
    rw [if_pos hrole] at hm
    simp only [recMatchesWhere, Bool.and_eq_true] at hm
    have hp := hm.1.1.1.1.1
    rw [hpid] at hp
    simpa [optEq] using hp
  · intro mpid hrole hmp r hr
    have hm := mem_getMedicalRecords_matches hr
    have hnp : ¬(u.role = UserRole.PATIENT) := by
      intro h
      rw [h] at hrole
      simp [clinicalRoles] at hrole
    simp only [buildRecordsWhere] at hm
    rw [if_neg hnp, if_pos hrole] at hm
    simp only [recMatchesWhere, Bool.and_eq_true] at hm
    have ho := hm.2
    rw [hmp] at ho
    simpa [recOrMatches] using ho
  · intro s hrole hq hs r hr
    have hm := mem_getMedicalRecords_matches hr
    simp only [buildRecordsWhere, hq] at hm
    rw [if_neg hs] at hm
    by_cases hp : u.role = UserRole.PATIENT
    · rw [if_pos hp] at hm
      simp only [recMatchesWhere, Bool.and_eq_true] at hm
      simpa [recOrMatches] using hm.2
    · have hnc : ¬(clinicalRoles.contains u.role = true) := by
        intro h
        rw [hrole] at h
        exact Bool.noConfusion h
      rw [if_neg hp, if_neg hnc] at hm
      simp only [recMatchesWhere, Bool.and_eq_true] at hm
      simpa [recOrMatches] using hm.2

/-- C5 witness: the amended scoping theorem applied to the concrete doctor,
query and one-record store of the counterexample: the record is visible to
the doctor precisely because they created it. -/
theorem getMedicalRecords_role_scoping_witness :
    exRec.createdById = exDoctor.id ∨ exRec.appointmentProfId = some "mp1" := by
  have h := (getMedicalRecords_role_scoping [exRec] exSearchQuery exDoctor).2.1
      "mp1" (by decide) rfl
  have e : getMedicalRecords [exRec] exSearchQuery exDoctor = [exRec] := rfl
  exact h exRec (by rw [e]; exact List.mem_singleton.mpr rfl)

/-- C10: for every update request by an authorized caller (Admin or the
record's creator) on an existing record: the operation succeeds and stores
`updateMedicalRecordData`; every structured content field that is absent or
JS-falsy in the request is left unchanged; a non-empty stored diagnosis
stays non-empty after every update; `notes` — and among the updatable
fields only `notes` — can be set to any supplied value including empty or
null; and the record's patient, creator and record type are unchanged by
every update. -/
theorem updateMedicalRecord_frame (key : String) (db : List MedicalRecord)
    (u : AuthedUser) (id : String) (req : UpdateRecReq) (existing : MedicalRecord)
    (hfind : db.find? (fun r => r.id == id) = some existing)
    (hperm : canUpdateRecord u existing = true) :
    updateMedicalRecord key db u id req =
      (.ok (updateMedicalRecordData key req existing),
       db.map (fun r => if r.id == id then updateMedicalRecordData key req existing else r)) ∧
    ((strFieldTruthy req.diagnosis = false →
        (updateMedicalRecordData key req existing).diagnosis = existing.diagnosis) ∧
     (strFieldTruthy req.treatment = false →
        (updateMedicalRecordData key req existing).treatment = existing.treatment) ∧
     (req.notes = none →
        (updateMedicalRecordData key req existing).notes = existing.notes) ∧
     (jsonFieldTruthy req.symptoms = false →
        (updateMedicalRecordData key req existing).symptoms = existing.symptoms) ∧
     (jsonFieldTruthy req.vitalSigns = false →
        (updateMedicalRecordData key req existing).vitalSigns = existing.vitalSigns) ∧
     (jsonFieldTruthy req.medications = false →
        (updateMedicalRecordData key req existing).medications = existing.medications) ∧
     (jsonFieldTruthy req.allergies = false →
        (updateMedicalRecordData key req existing).allergies = existing.allergies) ∧
     (jsonFieldTruthy req.familyHistory = false →
        (updateMedicalRecordData key req existing).familyHistory = existing.familyHistory) ∧
     (jsonFieldTruthy req.personalHistory = false →
        (updateMedicalRecordData key req existing).personalHistory = existing.personalHistory) ∧
     (jsonFieldTruthy req.physicalExam = false →
        (updateMedicalRecordData key req existing).physicalExam = existing.physicalExam) ∧
     (jsonFieldTruthy req.labResults = false →
        (updateMedicalRecordData key req existing).labResults = existing.labResults) ∧
     (jsonFieldTruthy req.imagingResults = false →
        (updateMedicalRecordData key req existing).imagingResults = existing.imagingResults) ∧
     (jsonFieldTruthy req.recommendations = false →
        (updateMedicalRecordData key req existing).recommendations = existing.recommendations) ∧
     (strFieldTruthy req.followUpDate = false →
        (updateMedicalRecordData key req existing).followUpDate = existing.followUpDate) ∧
     (jsonFieldTruthy req.icd10Codes = false →
        (updateMedicalRecordData key req existing).icd10Codes = existing.icd10Codes) ∧
     (jsonFieldTruthy req.sensitiveData = false →
        (updateMedicalRecordData key req existing).encryptedData = existing.encryptedData)) ∧
    (strFieldTruthy existing.diagnosis = true →
      strFieldTruthy (updateMedicalRecordData key req existing).diagnosis = true) ∧
    (∀ v, req.notes = some v → (updateMedicalRecordData key req existing).notes = v) ∧
    ((updateMedicalRecordData key req existing).patientId = existing.patientId ∧
     (updateMedicalRecordData key req existing).createdById = existing.createdById ∧
     (updateMedicalRecordData key req existing).recordType = existing.recordType) := by
  refine ⟨?_, ?_, ?_, ?_, ?_⟩
  · simp [updateMedicalRecord, hfind, hperm]
  · refine ⟨?_, ?_, ?_, ?_, ?_, ?_, ?_, ?_, ?_, ?_, ?_, ?_, ?_, ?_, ?_, ?_⟩ <;>
      intro h <;> simp [updateMedicalRecordData, h]
    · cases hj : req.sensitiveData with
      | none => simp
      | some j =>
        rw [hj] at h
        simp only [jsonFieldTruthy] at h
        simp [h]
  · intro h
    by_cases hd : strFieldTruthy req.diagnosis
    · cases hq : req.diagnosis with
      | none => rw [hq] at hd; exact absurd hd (by simp [strFieldTruthy])
      | some s =>
        rw [hq] at hd
        simp only [strFieldTruthy] at hd
        simp [updateMedicalRecordData, hq, strFieldTruthy, hd]
    · simp only [Bool.not_eq_true] at hd
      simp [updateMedicalRecordData, hd, h]
  · intro v hv
    simp [updateMedicalRecordData, hv]
  · refine ⟨?_, ?_, ?_⟩ <;> simp [updateMedicalRecordData]

/-- C10 witness: the frame theorem applied to the concrete store
`[exStored]`, caller `exDoctor` (the creator) and request `exUpdReq`: the
empty diagnosis in the request is ignored (the stored value survives), the
notes are set to the empty string, and patient/creator/record type are
unchanged. -/
theorem updateMedicalRecord_frame_witness :
    (updateMedicalRecordData "k" exUpdReq exStored).diagnosis = some "Hipertensión" ∧
    (updateMedicalRecordData "k" exUpdReq exStored).notes = some "" ∧
    (updateMedicalRecordData "k" exUpdReq exStored).patientId = exStored.patientId := by
  have h := updateMedicalRecord_frame "k" [exStored] exDoctor "r9" exUpdReq exStored
      (by rfl) (by rfl)
  refine ⟨?_, ?_, ?_⟩
  · have := h.2.1.1 (by rfl)
    rw [this]
    rfl
  · exact h.2.2.2.1 (some "") rfl
  · exact h.2.2.2.2.1

end Gaia
